import Mathlib

/-!
Verification of the topology conversion core of gns3-converter
(`gns3converter/topology.py`).

Python strings are embedded as `List Char`; Python dicts as insertion-ordered
association lists with Python's update semantics (`dinsert`); operations that
can raise an exception return `Option` (with `none` standing for a fatal,
conversion-aborting error).
-/

/-- A Python string, embedded as its list of characters. -/
abbrev PyStr := List Char

/-- Convert a Lean string literal into the embedded representation. -/
def pystr (s : String) : PyStr := s.data

/-- Python dict lookup (`d[k]` / `d.get(k)`): first binding of the key wins. -/
def dlookup {β : Type} : List (PyStr × β) → PyStr → Option β
  | [], _ => none
  | (k', v) :: m, k => if k' = k then some v else dlookup m k

/-- Python dict membership test (`k in d`). -/
def hasKey {β : Type} : List (PyStr × β) → PyStr → Bool
  | [], _ => false
  | (k', _) :: m, k => decide (k' = k) || hasKey m k

/-- Python dict assignment (`d[k] = v`): update in place if the key exists,
otherwise append at the end (dicts preserve insertion order). -/
def dinsert {β : Type} : List (PyStr × β) → PyStr → β → List (PyStr × β)
  | [], k, v => [(k, v)]
  | (k', v') :: m, k, v => if k' = k then (k, v) :: m else (k', v') :: dinsert m k v

/-- Strip a leading pattern: `stripLead pat s = some rest` iff `s = pat ++ rest`. -/
def stripLead : PyStr → PyStr → Option PyStr
  | [], s => some s
  | _ :: _, [] => none
  | p :: ps, c :: cs => if p = c then stripLead ps cs else none

/-- Fuelled worker for `replaceAll`; fuel is at least the length of the string. -/
def repAllF (pat repl : PyStr) : Nat → PyStr → PyStr
  | _, [] => []
  | 0, s => s
  | Nat.succ n, c :: cs =>
    match pat, stripLead pat (c :: cs) with
    | _ :: _, some rest => repl ++ repAllF pat repl n rest
    | _, _ => c :: repAllF pat repl n cs

/-- Python `s.replace(pat, repl)` for a non-empty pattern: replace every
non-overlapping occurrence, scanning left to right. -/
def replaceAll (pat repl s : PyStr) : PyStr := repAllF pat repl s.length s

/-- Whether a (non-empty) pattern occurs as a contiguous substring. -/
def containsPat (pat : PyStr) : PyStr → Bool
  | [] => (stripLead pat []).isSome
  | c :: cs => (stripLead pat (c :: cs)).isSome || containsPat pat cs

/-- Python `s.split(' ')[0]`: the characters before the first space. -/
def firstToken (s : PyStr) : PyStr := s.takeWhile (fun c => !(c = ' '))

/-- Python `s.split(c)`: split on every single occurrence of the character. -/
def splitOnChar (c : Char) : PyStr → List PyStr
  | [] => [[]]
  | x :: xs =>
    let r := splitOnChar c xs
    if x = c then [] :: r
    else
      match r with
      | [] => [[x]]
      | t :: ts => (x :: t) :: ts

/-- Python string comparison (`<=`), lexicographic by code point. -/
def keyLe : PyStr → PyStr → Bool
  | [], _ => true
  | _ :: _, [] => false
  | a :: as, b :: bs => if a = b then keyLe as bs else decide (a < b)

/-- Insert a key into a list sorted by `keyLe`. -/
def sinsert (k : PyStr) : List PyStr → List PyStr
  | [] => [k]
  | x :: xs => if keyLe k x then k :: x :: xs else x :: sinsert k xs

/-- Sort a list of keys, as Python `sorted` does for a dict's keys. -/
def ssort (l : List PyStr) : List PyStr := l.foldr sinsert []

/-- A legacy field value: either a string or a number (Python `None` is
represented one level up, as `Option Value`). -/
inductive Value where
  | str : PyStr → Value
  | num : Int → Value
deriving DecidableEq, Repr

/-- A legacy record: field name to raw value, `none` being Python `None`. -/
abbrev Record := List (PyStr × Option Value)

/-- The parsed legacy configuration: instance name to item key to record. -/
abbrev OldTop := List (PyStr × List (PyStr × Record))

/-- Access `old_top[instance][item]`; `none` is a fatal `KeyError`. -/
def lookup2 (ot : OldTop) (inst item : PyStr) : Option Record :=
  match dlookup ot inst with
  | none => none
  | some m => dlookup m item

/-- The body of the accumulator's copy loop:
`if d[s_item] is not None: acc[s_item] = f(d[s_item])`. -/
def copyStep (f : Value → Value) (r : Record) (acc : List (PyStr × Value))
    (k : PyStr) : List (PyStr × Value) :=
  match dlookup r k with
  | some (some v) => dinsert acc k (f v)
  | _ => acc

/-- The shared copy loop of the accumulator:
`for s_item in sorted(d): if d[s_item] is not None: acc[s_item] = f(d[s_item])`. -/
def copyFields (f : Value → Value) (r : Record) (init : List (PyStr × Value)) :
    List (PyStr × Value) :=
  (ssort (r.map Prod.fst)).foldl (copyStep f r) init

/-- Quote stripping from `add_artwork_item`: a string of length > 1 whose first
and last characters are both `"` loses those two characters. -/
def stripQuotes (s : PyStr) : PyStr :=
  if 1 < s.length ∧ s.head? = some '"' ∧ s.getLast? = some '"' then
    (s.drop 1).dropLast
  else s

/-- The value transform of `add_artwork_item`: for string values, first expand
the two-character sequence backslash-n into a newline when the category is
`NOTE`, then strip a surrounding pair of double quotes. -/
def artTransform (cat : PyStr) : Value → Value
  | Value.num n => Value.num n
  | Value.str s =>
    let s1 := if cat = pystr "NOTE" then replaceAll [ '\\', 'n' ] [ '\n' ] s else s
    Value.str (stripQuotes s1)

/-- One entry of the static device-type table of `device_typename`. -/
structure DevInfo where
  dfrom : PyStr
  desc : PyStr
  dtype : PyStr
deriving DecidableEq, Repr

/-- The fixed 9-entry device-type table of `device_typename`. -/
def devTable (tag : PyStr) : Option DevInfo :=
  if tag = pystr "ROUTER" then some ⟨pystr "ROUTER", pystr "Router", pystr "Router"⟩
  else if tag = pystr "QEMU" then some ⟨pystr "QEMU", pystr "QEMU", pystr "QEMU"⟩
  else if tag = pystr "VBOX" then some ⟨pystr "VBOX", pystr "VBOX", pystr "VBOX"⟩
  else if tag = pystr "FRSW" then
    some ⟨pystr "FRSW", pystr "Frame Relay switch", pystr "FrameRelaySwitch"⟩
  else if tag = pystr "ETHSW" then
    some ⟨pystr "ETHSW", pystr "Ethernet switch", pystr "EthernetSwitch"⟩
  else if tag = pystr "Hub" then
    some ⟨pystr "Hub", pystr "Ethernet hub", pystr "EthernetHub"⟩
  else if tag = pystr "ATMSW" then
    some ⟨pystr "ATMSW", pystr "ATM switch", pystr "ATMSwitch"⟩
  else if tag = pystr "ATMBR" then some ⟨pystr "ATMBR", pystr "ATMBR", pystr "ATMBR"⟩
  else if tag = pystr "Cloud" then some ⟨pystr "Cloud", pystr "Cloud", pystr "Cloud"⟩
  else none

/-- `LegacyTopology.device_typename`: look the first space-separated token up
in the table, then drop `"<from> "` from the item via Python `str.replace`
(which removes every occurrence). `none` is the fatal `KeyError`. -/
def deviceTypename (item : PyStr) : Option (PyStr × DevInfo) :=
  match devTable (firstToken item) with
  | none => none
  | some info => some (replaceAll (info.dfrom ++ [ ' ' ]) [] item, info)

/-- The mutable state of a `LegacyTopology`: the accumulating output structure
(devices, conf, the three artwork categories) and the two cursors. -/
structure LegacyState where
  devices : List (PyStr × List (PyStr × Value))
  conf : List (List (PyStr × Value))
  artSHAPE : List (PyStr × List (PyStr × Value))
  artNOTE : List (PyStr × List (PyStr × Value))
  artPIXMAP : List (PyStr × List (PyStr × Value))
  hv_id : Nat
  nid : Nat
deriving DecidableEq, Repr

/-- The state built by `LegacyTopology.__init__`. -/
def initState : LegacyState := ⟨[], [], [], [], [], 0, 1⟩

/-- The three fixed assignments at the start of `add_physical_item`:
`hv_id`, `node_id` and `type`. -/
def baseDevice (st : LegacyState) (info : DevInfo) : List (PyStr × Value) :=
  [(pystr "hv_id", Value.num st.hv_id),
   (pystr "node_id", Value.num st.nid),
   (pystr "type", Value.str info.dtype)]

/-- The model-resolution step of `add_physical_item`, parameterised by the
model translation table `mt`. Modelled from the spec: `mt` stands for the
`MODEL_TRANSFORM` dict imported from `gns3converter.models`, a module absent
from the sources; per the spec it is an external symbol-to-symbol translation
table whose lookup failure is a fatal error. -/
def resolveModel (mt : Value → Option Value) (st : LegacyState) (inst : PyStr)
    (d1 : List (PyStr × Value)) : Option (List (PyStr × Value)) :=
  if inst ≠ pystr "GNS3-DATA" ∧
      dlookup d1 (pystr "type") = some (Value.str (pystr "Router")) then
    if !hasKey d1 (pystr "model") then
      match st.conf[st.hv_id]? with
      | none => none
      | some c =>
        match dlookup c (pystr "model") with
        | none => none
        | some mv => some (dinsert d1 (pystr "model") mv)
    else
      match dlookup d1 (pystr "model") with
      | none => none
      | some m =>
        match mt m with
        | none => none
        | some m2 => some (dinsert d1 (pystr "model") m2)
  else some d1

/-- `LegacyTopology.add_physical_item`. -/
def addPhysicalItem (mt : Value → Option Value) (ot : OldTop) (inst item : PyStr)
    (st : LegacyState) : Option LegacyState :=
  match deviceTypename item with
  | none => none
  | some (name, info) =>
    match lookup2 ot inst item with
    | none => none
    | some r =>
      match resolveModel mt st inst (copyFields id r (baseDevice st info)) with
      | none => none
      | some entry =>
        some { st with devices := dinsert st.devices name entry, nid := st.nid + 1 }

/-- `LegacyTopology.add_conf_item`. -/
def addConfItem (ot : OldTop) (inst item : PyStr) (st : LegacyState) :
    Option LegacyState :=
  match lookup2 ot inst item with
  | none => none
  | some r =>
    let conf' := st.conf ++ [copyFields id r []]
    some { st with conf := conf', hv_id := conf'.length - 1 }

/-- Store a finished artwork record under `topology['artwork'][cat][ident]`;
an unknown category is the fatal `KeyError`. -/
def artSet (st : LegacyState) (cat ident : PyStr) (entry : List (PyStr × Value)) :
    Option LegacyState :=
  if cat = pystr "SHAPE" then some { st with artSHAPE := dinsert st.artSHAPE ident entry }
  else if cat = pystr "NOTE" then some { st with artNOTE := dinsert st.artNOTE ident entry }
  else if cat = pystr "PIXMAP" then
    some { st with artPIXMAP := dinsert st.artPIXMAP ident entry }
  else none

/-- Read `topology['artwork'][cat]`. -/
def artCat (st : LegacyState) (cat : PyStr) :
    Option (List (PyStr × List (PyStr × Value))) :=
  if cat = pystr "SHAPE" then some st.artSHAPE
  else if cat = pystr "NOTE" then some st.artNOTE
  else if cat = pystr "PIXMAP" then some st.artPIXMAP
  else none

/-- `LegacyTopology.add_artwork_item`. -/
def addArtworkItem (ot : OldTop) (inst item : PyStr) (st : LegacyState) :
    Option LegacyState :=
  match lookup2 ot inst item with
  | none => none
  | some r =>
    if hasKey r (pystr "interface") then some st
    else
      match splitOnChar ' ' item with
      | [itemType, itemId] =>
        artSet st itemType itemId (copyFields (artTransform itemType) r [])
      | _ => none

/-- A JSON-like value, the payload of the `JSONTopology` assembler; `jnull`
stands for Python `None`. -/
inductive JVal where
  | jnull : JVal
  | jbool : Bool → JVal
  | jnum : Int → JVal
  | jstr : PyStr → JVal
  | jarr : List JVal → JVal
  | jobj : List (PyStr × JVal) → JVal

/-- Python `x is None`, on embedded values. -/
def isNull : JVal → Bool
  | JVal.jnull => true
  | _ => false

/-- Python subscript `v[k]` for dict-like values; anything else (including
`None`) is a fatal access error. -/
def jsub (v : JVal) (k : PyStr) : Option JVal :=
  match v with
  | JVal.jobj fields => dlookup fields k
  | _ => none

/-- The default `_servers` list of `JSONTopology.__init__`. -/
def defaultServers : JVal :=
  JVal.jarr [JVal.jobj
    [(pystr "host", JVal.jstr (pystr "127.0.0.1")),
     (pystr "id", JVal.jnum 1),
     (pystr "local", JVal.jbool true),
     (pystr "port", JVal.jnum 8000)]]

/-- The seven fields of a `JSONTopology`. -/
structure JSONTopology where
  nodes : JVal
  links : JVal
  notes : JVal
  shapes : JVal
  images : JVal
  servers : JVal
  name : JVal

/-- `JSONTopology.__init__`: everything `None` except the default servers. -/
def JSONTopology.init : JSONTopology :=
  ⟨JVal.jnull, JVal.jnull, JVal.jnull, JVal.jnull, JVal.jnull, defaultServers, JVal.jnull⟩

/-- The inner `topology['topology']` dict of `get_topology`: conditional
assignments of `links`, `nodes`, `servers`, `notes`, `ellipses`, `rectangles`
and `images`, in source order, each guarded by an `is not None` test
(`e` and `rct` are the already-fetched `shapes['ellipse']`/`shapes['rectangle']`). -/
def innerChain (t : JSONTopology) (e rct : JVal) : List (PyStr × JVal) :=
  let inner0 : List (PyStr × JVal) := []
  let inner1 := if !isNull t.links then dinsert inner0 (pystr "links") t.links else inner0
  let inner2 := if !isNull t.nodes then dinsert inner1 (pystr "nodes") t.nodes else inner1
  let inner3 :=
    if !isNull t.servers then dinsert inner2 (pystr "servers") t.servers else inner2
  let inner4 := if !isNull t.notes then dinsert inner3 (pystr "notes") t.notes else inner3
  let inner5 := if !isNull e then dinsert inner4 (pystr "ellipses") e else inner4
  let inner6 := if !isNull rct then dinsert inner5 (pystr "rectangles") rct else inner5
  if !isNull t.images then dinsert inner6 (pystr "images") t.images else inner6

/-- `JSONTopology.get_topology`: assemble the final structure, adding each
collection only when it `is not None`, and unconditionally subscripting the
shapes container (`none` is the fatal access error). -/
def getTopology (t : JSONTopology) : Option JVal :=
  match jsub t.shapes (pystr "ellipse") with
  | none => none
  | some e =>
    match jsub t.shapes (pystr "rectangle") with
    | none => none
    | some rct =>
      some (JVal.jobj
        [(pystr "name", t.name),
         (pystr "resources_type", JVal.jstr (pystr "local")),
         (pystr "topology", JVal.jobj (innerChain t e rct)),
         (pystr "type", JVal.jstr (pystr "topology")),
         (pystr "version", JVal.jstr (pystr "1.0"))])

/-- One accumulator call, for reasoning about whole conversions. -/
inductive Op where
  | conf (inst item : PyStr)
  | phys (inst item : PyStr)
  | art (inst item : PyStr)

/-- Dispatch one call to the accumulator. -/
def applyOp (mt : Value → Option Value) (ot : OldTop) (op : Op) (st : LegacyState) :
    Option LegacyState :=
  match op with
  | Op.conf i it => addConfItem ot i it st
  | Op.phys i it => addPhysicalItem mt ot i it st
  | Op.art i it => addArtworkItem ot i it st

/-- Run a sequence of accumulator calls; any fatal error aborts the run. -/
def runOps (mt : Value → Option Value) (ot : OldTop) :
    List Op → LegacyState → Option LegacyState
  | [], st => some st
  | op :: ops, st =>
    match applyOp mt ot op st with
    | none => none
    | some st' => runOps mt ot ops st'

/-- Run a sequence of calls and record the `nid` cursor value consumed by each
successful `add_physical_item` call, in order. -/
def runTrace (mt : Value → Option Value) (ot : OldTop) :
    List Op → LegacyState → Option (List Nat × LegacyState)
  | [], st => some ([], st)
  | op :: ops, st =>
    match applyOp mt ot op st with
    | none => none
    | some st' =>
      match runTrace mt ot ops st' with
      | none => none
      | some (t, stf) =>
        match op with
        | Op.phys _ _ => some (st.nid :: t, stf)
        | _ => some (t, stf)

/-- The consecutive integers `s, s+1, ..., s+n-1`. -/
def natSeq (s : Nat) : Nat → List Nat
  | 0 => []
  | n + 1 => s :: natSeq (s + 1) n

/-! ### Concrete data used by witnesses and counterexamples -/

/-- A model-translation table with no entries (the translation table is never
consulted by the scenarios below). -/
def mtZ : Value → Option Value := fun _ => none

/-- A legacy configuration with a single `Cloud C1` item and no fields. -/
def otC1 : OldTop := [(pystr "GNS3-DATA", [(pystr "Cloud C1", ([] : Record))])]

/-- The device record produced for `Cloud C1` from the initial state. -/
def devC1 : List (PyStr × Value) :=
  [(pystr "hv_id", Value.num 0), (pystr "node_id", Value.num 1),
   (pystr "type", Value.str (pystr "Cloud"))]

/-- The accumulator state after adding `Cloud C1` from the initial state. -/
def stCloud1 : LegacyState := ⟨[(pystr "C1", devC1)], [], [], [], [], 0, 2⟩

/-- The accumulator state after adding `Cloud C1` twice from the initial state:
one device record, `node_id` 2, `nid` cursor 3. -/
def stCloud2 : LegacyState :=
  ⟨[(pystr "C1",
     [(pystr "hv_id", Value.num 0), (pystr "node_id", Value.num 2),
      (pystr "type", Value.str (pystr "Cloud"))])], [], [], [], [], 0, 3⟩

/-- A legacy configuration with two cloud items. -/
def otTwoClouds : OldTop :=
  [(pystr "GNS3-DATA",
    [(pystr "Cloud C1", ([] : Record)), (pystr "Cloud C2", ([] : Record))])]

/-- Two successive `add_physical_item` calls. -/
def opsTwoClouds : List Op :=
  [Op.phys (pystr "GNS3-DATA") (pystr "Cloud C1"),
   Op.phys (pystr "GNS3-DATA") (pystr "Cloud C2")]

/-- The final state of the two-cloud run. -/
def stTwoClouds : LegacyState :=
  ⟨[(pystr "C1", devC1),
    (pystr "C2",
     [(pystr "hv_id", Value.num 0), (pystr "node_id", Value.num 2),
      (pystr "type", Value.str (pystr "Cloud"))])], [], [], [], [], 0, 3⟩


/-- A legacy configuration with one hypervisor config item (`model: c3600`)
and one `ROUTER R1` item carrying a single extra field `x`. -/
def otRouter : OldTop :=
  [(pystr "R1",
    [(pystr "7200", [(pystr "model", some (Value.str (pystr "c3600")))]),
     (pystr "ROUTER R1", [(pystr "x", some (Value.str (pystr "10")))])])]

/-- The accumulator state after the config block of `otRouter` was added. -/
def stRouterMid : LegacyState :=
  ⟨[], [[(pystr "model", Value.str (pystr "c3600"))]], [], [], [], 0, 1⟩

/-- The device record produced for `ROUTER R1` from `stRouterMid`: the model
is copied from the owning config block. -/
def devR1 : List (PyStr × Value) :=
  [(pystr "hv_id", Value.num 0), (pystr "node_id", Value.num 1),
   (pystr "type", Value.str (pystr "Router")), (pystr "x", Value.str (pystr "10")),
   (pystr "model", Value.str (pystr "c3600"))]

/-- The accumulator state after `ROUTER R1` was added to `stRouterMid`. -/
def stRouterFin : LegacyState :=
  ⟨[(pystr "R1", devR1)], [[(pystr "model", Value.str (pystr "c3600"))]],
   [], [], [], 0, 2⟩

/-- The legacy record of the model-resolution scenario:
`{'model': None, 'x': '10'}`. -/
def rModelNull : Record :=
  [(pystr "model", (none : Option Value)), (pystr "x", some (Value.str (pystr "10")))]

/-- A legacy configuration holding only `ROUTER R1` with a null model field. -/
def otModelNull : OldTop := [(pystr "R1", [(pystr "ROUTER R1", rModelNull)])]

/-- The legacy record of the artwork scenario: a `NOTE` text field holding
the quoted, backslash-n-escaped string `"hello\nworld"`. -/
def noteRec : Record :=
  [(pystr "text", some (Value.str (pystr "\"hello\\nworld\"")))]

/-- A legacy configuration holding only the artwork item `NOTE 1`. -/
def otNote : OldTop := [(pystr "GNS3-DATA", [(pystr "NOTE 1", noteRec)])]

/-- The assembler scenario: null nodes, links, notes and images; a shapes
container with empty ellipse and rectangle lists; default servers. -/
def tScenario : JSONTopology :=
  ⟨JVal.jnull, JVal.jnull, JVal.jnull,
   JVal.jobj [(pystr "ellipse", JVal.jarr []), (pystr "rectangle", JVal.jarr [])],
   JVal.jnull, defaultServers, JVal.jnull⟩

/-- The structure assembled from `tScenario`: empty ellipses and rectangles
and the default servers are present; nodes, links, notes and images are not. -/
def outScenario : JVal :=
  JVal.jobj
    [(pystr "name", JVal.jnull),
     (pystr "resources_type", JVal.jstr (pystr "local")),
     (pystr "topology", JVal.jobj
       [(pystr "servers", defaultServers),
        (pystr "ellipses", JVal.jarr []),
        (pystr "rectangles", JVal.jarr [])]),
     (pystr "type", JVal.jstr (pystr "topology")),
     (pystr "version", JVal.jstr (pystr "1.0"))]

/-! ### Dictionary lemmas -/

theorem dlookup_dinsert_self {β : Type} (m : List (PyStr × β)) (k : PyStr) (v : β) :
    dlookup (dinsert m k v) k = some v := by
  induction m with
  | nil => simp [dinsert, dlookup]
  | cons p m ih =>
    obtain ⟨k', v'⟩ := p
    by_cases h : k' = k
    · simp [dinsert, h, dlookup]
    · simp [dinsert, h, dlookup, ih]

theorem dlookup_dinsert_ne {β : Type} (m : List (PyStr × β)) (k' k : PyStr) (v : β)
    (h : k' ≠ k) : dlookup (dinsert m k' v) k = dlookup m k := by
  induction m with
  | nil => simp [dinsert, dlookup, h]
  | cons p m ih =>
    obtain ⟨k'', v''⟩ := p
    by_cases h2 : k'' = k'
    · subst h2; simp [dinsert, dlookup, h]
    · simp [dinsert, h2, dlookup, ih]

theorem hasKey_dinsert {β : Type} (m : List (PyStr × β)) (k key : PyStr) (v : β) :
    hasKey (dinsert m k v) key = (decide (k = key) || hasKey m key) := by
  induction m with
  | nil => simp [dinsert, hasKey]
  | cons p m ih =>
    obtain ⟨k', v'⟩ := p
    by_cases h : k' = k
    · subst h; simp [dinsert, hasKey]
    · simp [dinsert, h, hasKey, ih, Bool.or_left_comm]

theorem dinsert_fresh {β : Type} (m : List (PyStr × β)) (k : PyStr) (v : β)
    (h : hasKey m k = false) : dinsert m k v = m ++ [(k, v)] := by
  induction m with
  | nil => rfl
  | cons p m ih =>
    obtain ⟨k', v'⟩ := p
    simp only [hasKey, Bool.or_eq_false_iff, decide_eq_false_iff_not] at h
    simp [dinsert, h.1, ih h.2]

theorem hasKey_append {β : Type} (a b : List (PyStr × β)) (k : PyStr) :
    hasKey (a ++ b) k = (hasKey a k || hasKey b k) := by
  induction a with
  | nil => simp [hasKey]
  | cons p a ih => obtain ⟨k', v'⟩ := p; simp [hasKey, ih, Bool.or_assoc]

theorem dlookup_isSome_iff_mem {β : Type} (m : List (PyStr × β)) (k : PyStr) :
    (dlookup m k).isSome = true ↔ k ∈ m.map Prod.fst := by
  induction m with
  | nil => simp [dlookup]
  | cons p m ih =>
    obtain ⟨k', v'⟩ := p
    rw [List.map_cons, List.mem_cons]
    by_cases h : k' = k
    · subst h
      constructor
      · intro _; exact Or.inl rfl
      · intro _; simp [dlookup]
    · rw [show dlookup ((k', v') :: m) k = dlookup m k by simp [dlookup, h], ih]
      constructor
      · exact Or.inr
      · rintro (he | hm)
        · exact absurd he.symm h
        · exact hm

/-! ### Sorting lemmas -/

theorem sinsert_perm (k : PyStr) (l : List PyStr) :
    List.Perm (sinsert k l) (k :: l) := by
  induction l with
  | nil => exact List.Perm.refl _
  | cons x xs ih =>
    by_cases h : keyLe k x = true
    · simp [sinsert, h]
    · simp only [sinsert, h, if_false, Bool.false_eq_true]
      exact (List.Perm.cons x ih).trans (List.Perm.swap k x xs)

theorem ssort_perm (l : List PyStr) : List.Perm (ssort l) l := by
  induction l with
  | nil => exact List.Perm.refl _
  | cons k l ih => exact (sinsert_perm k (ssort l)).trans (List.Perm.cons k ih)

theorem mem_ssort (k : PyStr) (l : List PyStr) : k ∈ ssort l ↔ k ∈ l :=
  (ssort_perm l).mem_iff

theorem nodup_ssort (l : List PyStr) (h : l.Nodup) : (ssort l).Nodup :=
  (ssort_perm l).nodup_iff.mpr h

/-! ### Copy-loop lemmas -/

theorem foldl_copyStep_null (f : Value → Value) (r : Record) (key : PyStr)
    (h : (dlookup r key).join = none) :
    ∀ (ks : List PyStr) (init : List (PyStr × Value)),
      dlookup (ks.foldl (copyStep f r) init) key = dlookup init key := by
  intro ks
  induction ks with
  | nil => intro init; rfl
  | cons k ks ih =>
    intro init
    rw [List.foldl_cons, ih]
    unfold copyStep
    by_cases hk : k = key
    · subst hk
      cases hl : dlookup r k with
      | none => simp
      | some o =>
        cases o with
        | none => simp
        | some v => rw [hl] at h; simp [Option.join] at h
    · cases dlookup r k with
      | none => rfl
      | some o =>
        cases o with
        | none => rfl
        | some v => exact dlookup_dinsert_ne _ _ _ _ hk

theorem foldl_copyStep_some (f : Value → Value) (r : Record) (key : PyStr)
    (v : Value) (h : (dlookup r key).join = some v) :
    ∀ (ks : List PyStr) (init : List (PyStr × Value)),
      (key ∈ ks ∨ dlookup init key = some (f v)) →
      dlookup (ks.foldl (copyStep f r) init) key = some (f v) := by
  intro ks
  induction ks with
  | nil =>
    intro init hmem
    rcases hmem with hmem | hmem
    · exact absurd hmem (List.not_mem_nil key)
    · exact hmem
  | cons k ks ih =>
    intro init hmem
    rw [List.foldl_cons]
    by_cases hk : k = key
    · subst hk
      apply ih
      right
      have hl : dlookup r k = some (some v) := by
        cases hl : dlookup r k with
        | none => rw [hl] at h; simp [Option.join] at h
        | some o =>
          cases o with
          | none => rw [hl] at h; simp [Option.join] at h
          | some w => rw [hl] at h; simp [Option.join] at h; rw [h]
      unfold copyStep
      rw [hl]
      exact dlookup_dinsert_self _ _ _
    · apply ih
      rcases hmem with hmem | hmem
      · rcases List.mem_cons.mp hmem with hmem | hmem
        · exact absurd hmem.symm hk
        · exact Or.inl hmem
      · right
        unfold copyStep
        cases dlookup r k with
        | none => exact hmem
        | some o =>
          cases o with
          | none => exact hmem
          | some w => rw [dlookup_dinsert_ne _ _ _ _ hk]; exact hmem

theorem foldl_copyStep_hasKey (f : Value → Value) (r : Record) (key : PyStr) :
    ∀ (ks : List PyStr) (init : List (PyStr × Value)),
      hasKey (ks.foldl (copyStep f r) init) key = true ↔
      hasKey init key = true ∨ (key ∈ ks ∧ (dlookup r key).join.isSome = true) := by
  intro ks
  induction ks with
  | nil => intro init; simp
  | cons k ks ih =>
    intro init
    rw [List.foldl_cons, ih]
    have hstep : hasKey (copyStep f r init k) key = true ↔
        hasKey init key = true ∨ (k = key ∧ (dlookup r key).join.isSome = true) := by
      unfold copyStep
      by_cases hk : k = key
      · subst hk
        cases hl : dlookup r k with
        | none => simp [hl, Option.join]
        | some o =>
          cases o with
          | none => simp [hl, Option.join]
          | some v => simp [hl, Option.join, hasKey_dinsert]
      · cases dlookup r k with
        | none => simp [hk]
        | some o =>
          cases o with
          | none => simp [hk]
          | some v => simp [hasKey_dinsert, hk]
    rw [hstep]
    constructor
    · rintro ((h | h) | ⟨hm, hs⟩)
      · exact Or.inl h
      · exact Or.inr ⟨by rw [← h.1]; exact List.mem_cons_self k ks, h.2⟩
      · exact Or.inr ⟨List.mem_cons_of_mem k hm, hs⟩
    · rintro (h | ⟨hm, hs⟩)
      · exact Or.inl (Or.inl h)
      · rcases List.mem_cons.mp hm with hm | hm
        · exact Or.inl (Or.inr ⟨hm.symm, hs⟩)
        · exact Or.inr ⟨hm, hs⟩

theorem foldl_copyStep_filterMap (f : Value → Value) (r : Record) :
    ∀ (ks : List PyStr) (init : List (PyStr × Value)), ks.Nodup →
      (∀ k ∈ ks, hasKey init k = false) →
      ks.foldl (copyStep f r) init =
        init ++ ks.filterMap
          (fun k => ((dlookup r k).join).map (fun v => (k, f v))) := by
  intro ks
  induction ks with
  | nil => intro init _ _; simp
  | cons k ks ih =>
    intro init hnd hfresh
    rw [List.foldl_cons]
    have hndtail := (List.nodup_cons.mp hnd).2
    have hknotin := (List.nodup_cons.mp hnd).1
    have hfreshk := hfresh k (List.mem_cons_self k ks)
    cases hl : dlookup r k with
    | none =>
      have hstep : copyStep f r init k = init := by unfold copyStep; rw [hl]
      rw [hstep, ih init hndtail (fun k' hk' => hfresh k' (List.mem_cons_of_mem k hk'))]
      simp [hl, Option.join]
    | some o =>
      cases o with
      | none =>
        have hstep : copyStep f r init k = init := by unfold copyStep; rw [hl]
        rw [hstep, ih init hndtail (fun k' hk' => hfresh k' (List.mem_cons_of_mem k hk'))]
        simp [hl, Option.join]
      | some v =>
        have hstep : copyStep f r init k = init ++ [(k, f v)] := by
          unfold copyStep; rw [hl]; exact dinsert_fresh init k (f v) hfreshk
        rw [hstep, ih (init ++ [(k, f v)]) hndtail]
        · simp [hl, Option.join]
        · intro k' hk'
          rw [hasKey_append]
          have h1 : hasKey init k' = false := hfresh k' (List.mem_cons_of_mem k hk')
          have h2 : hasKey [(k, f v)] k' = false := by
            simp [hasKey]
            intro he
            exact absurd (he ▸ hk') hknotin
          rw [h1, h2]; rfl

theorem copyFields_dlookup_null (f : Value → Value) (r : Record)
    (init : List (PyStr × Value)) (key : PyStr) (h : (dlookup r key).join = none) :
    dlookup (copyFields f r init) key = dlookup init key :=
  foldl_copyStep_null f r key h _ init

theorem copyFields_dlookup_some (f : Value → Value) (r : Record)
    (init : List (PyStr × Value)) (key : PyStr) (v : Value)
    (h : (dlookup r key).join = some v) :
    dlookup (copyFields f r init) key = some (f v) := by
  apply foldl_copyStep_some f r key v h
  left
  rw [mem_ssort, ← dlookup_isSome_iff_mem]
  cases hl : dlookup r key with
  | none => rw [hl] at h; simp [Option.join] at h
  | some o => rfl

theorem hasKey_copyFields (f : Value → Value) (r : Record)
    (init : List (PyStr × Value)) (key : PyStr) :
    hasKey (copyFields f r init) key = true ↔
      hasKey init key = true ∨ (dlookup r key).join.isSome = true := by
  rw [copyFields, foldl_copyStep_hasKey]
  constructor
  · rintro (h | ⟨_, hs⟩)
    · exact Or.inl h
    · exact Or.inr hs
  · rintro (h | hs)
    · exact Or.inl h
    · refine Or.inr ⟨?_, hs⟩
      rw [mem_ssort, ← dlookup_isSome_iff_mem]
      cases hl : dlookup r key with
      | none => rw [hl] at hs; simp [Option.join] at hs
      | some o => rfl

theorem copyFields_eq_filterMap (f : Value → Value) (r : Record)
    (hnd : (r.map Prod.fst).Nodup) :
    copyFields f r [] =
      (ssort (r.map Prod.fst)).filterMap
        (fun k => ((dlookup r k).join).map (fun v => (k, f v))) := by
  rw [copyFields, foldl_copyStep_filterMap f r _ [] (nodup_ssort _ hnd)
    (fun k _ => rfl)]
  rfl

/-! ### String-replacement lemmas -/

theorem stripLead_eq (pat : PyStr) :
    ∀ (s rest : PyStr), stripLead pat s = some rest → s = pat ++ rest := by
  induction pat with
  | nil =>
    intro s rest h
    simp [stripLead] at h
    simp [h]
  | cons p ps ih =>
    intro s rest h
    cases s with
    | nil => simp [stripLead] at h
    | cons c cs =>
      by_cases hpc : p = c
      · subst hpc
        simp [stripLead] at h
        rw [List.cons_append, ih cs rest h]
      · simp [stripLead, hpc] at h

theorem stripLead_append (pat t : PyStr) : stripLead pat (pat ++ t) = some t := by
  induction pat with
  | nil => rfl
  | cons p ps ih => simp [stripLead, ih]

theorem repAllF_fuel (pat repl : PyStr) :
    ∀ (n m : Nat) (s : PyStr), s.length ≤ n → s.length ≤ m →
      repAllF pat repl n s = repAllF pat repl m s := by
  intro n
  induction n with
  | zero =>
    intro m s hn _
    have : s = [] := List.length_eq_zero.mp (Nat.le_zero.mp hn)
    subst this
    cases m <;> rfl
  | succ n ih =>
    intro m s hn hm
    cases s with
    | nil => cases m <;> rfl
    | cons c cs =>
      cases m with
      | zero => simp at hm
      | succ m' =>
        simp only [List.length_cons] at hn hm
        simp only [repAllF]
        cases pat with
        | nil =>
          dsimp only
          rw [ih m' cs (by omega) (by omega)]
        | cons p ps =>
          cases hsl : stripLead (p :: ps) (c :: cs) with
          | none =>
            dsimp only
            rw [ih m' cs (by omega) (by omega)]
          | some rest =>
            dsimp only
            have heq := stripLead_eq (p :: ps) (c :: cs) rest hsl
            have hlen : (c :: cs).length = (p :: ps).length + rest.length := by
              rw [heq, List.length_append]
            simp only [List.length_cons] at hlen
            rw [ih m' rest (by omega) (by omega)]

theorem replaceAll_cons_match (p : Char) (ps repl : PyStr) (c : Char) (cs rest : PyStr)
    (h : stripLead (p :: ps) (c :: cs) = some rest) :
    replaceAll (p :: ps) repl (c :: cs) = repl ++ replaceAll (p :: ps) repl rest := by
  have heq := stripLead_eq (p :: ps) (c :: cs) rest h
  have hlen : rest.length ≤ cs.length := by
    have h2 : (c :: cs).length = (p :: ps).length + rest.length := by
      rw [heq, List.length_append]
    simp only [List.length_cons] at h2
    omega
  unfold replaceAll
  simp only [List.length_cons, repAllF, h]
  rw [repAllF_fuel (p :: ps) repl cs.length rest.length rest hlen (Nat.le_refl _)]

theorem replaceAll_cons_nomatch (pat repl : PyStr) (c : Char) (cs : PyStr)
    (h : stripLead pat (c :: cs) = none) :
    replaceAll pat repl (c :: cs) = c :: replaceAll pat repl cs := by
  unfold replaceAll
  simp only [List.length_cons, repAllF]
  cases pat with
  | nil => rfl
  | cons p ps => rw [h]

theorem replaceAll_append_self (pat rest : PyStr) (hp : pat ≠ []) :
    replaceAll pat [] (pat ++ rest) = replaceAll pat [] rest := by
  cases pat with
  | nil => exact absurd rfl hp
  | cons p ps =>
    rw [List.cons_append,
      replaceAll_cons_match p ps [] p (ps ++ rest) rest
        (by rw [← List.cons_append]; exact stripLead_append (p :: ps) rest)]
    rfl

theorem replaceAll_no_occurrence (pat repl : PyStr) :
    ∀ s : PyStr, containsPat pat s = false → replaceAll pat repl s = s := by
  intro s
  induction s with
  | nil => intro _; rfl
  | cons c cs ih =>
    intro h
    simp only [containsPat, Bool.or_eq_false_iff] at h
    have hnone : stripLead pat (c :: cs) = none := by
      cases hsl : stripLead pat (c :: cs) with
      | none => rfl
      | some rest => rw [hsl] at h; simp at h
    rw [replaceAll_cons_nomatch pat repl c cs hnone, ih h.2]

theorem firstToken_append (tag nm : PyStr) (h : ∀ c ∈ tag, ¬ c = ' ') :
    firstToken (tag ++ ' ' :: nm) = tag := by
  induction tag with
  | nil => simp [firstToken, List.takeWhile]
  | cons c tag ih =>
    have hc : ¬ c = ' ' := h c (List.mem_cons_self c tag)
    rw [List.cons_append]
    simp only [firstToken, List.takeWhile_cons, hc, decide_False, Bool.not_false,
      if_true]
    rw [show List.takeWhile (fun c => !(c = ' ')) (tag ++ ' ' :: nm) = tag from
      ih (fun c' hc' => h c' (List.mem_cons_of_mem c hc'))]

/-! ### Device-table lemmas -/

theorem devTable_spec (tag : PyStr) (info : DevInfo) (ht : devTable tag = some info) :
    info.dfrom = tag ∧ (∀ c ∈ tag, ¬ c = ' ') ∧
      tag ∈ [pystr "ROUTER", pystr "QEMU", pystr "VBOX", pystr "FRSW", pystr "ETHSW",
             pystr "Hub", pystr "ATMSW", pystr "ATMBR", pystr "Cloud"] := by
  unfold devTable at ht
  repeat' split at ht
  all_goals first
    | (rename_i heq
       subst heq
       cases ht
       exact ⟨rfl, by decide, by decide⟩)
    | (cases ht)

/-! ### Base-device record lemmas -/

theorem baseDevice_hv (st : LegacyState) (info : DevInfo) :
    dlookup (baseDevice st info) (pystr "hv_id") = some (Value.num st.hv_id) := rfl

theorem baseDevice_node (st : LegacyState) (info : DevInfo) :
    dlookup (baseDevice st info) (pystr "node_id") = some (Value.num st.nid) := rfl

theorem baseDevice_type (st : LegacyState) (info : DevInfo) :
    dlookup (baseDevice st info) (pystr "type") = some (Value.str info.dtype) := rfl

theorem baseDevice_no_model (st : LegacyState) (info : DevInfo) :
    hasKey (baseDevice st info) (pystr "model") = false := rfl

/-! ### Success-shape lemmas for the accumulator operations -/

theorem resolveModel_shape (mt : Value → Option Value) (st : LegacyState)
    (inst : PyStr) (d1 entry : List (PyStr × Value))
    (h : resolveModel mt st inst d1 = some entry) :
    entry = d1 ∨ ∃ mv, entry = dinsert d1 (pystr "model") mv := by
  unfold resolveModel at h
  split at h
  · split at h
    · cases hc : st.conf[st.hv_id]? with
      | none => rw [hc] at h; cases h
      | some c =>
        rw [hc] at h
        dsimp only at h
        cases hm : dlookup c (pystr "model") with
        | none => rw [hm] at h; cases h
        | some mv => rw [hm] at h; cases h; exact Or.inr ⟨mv, rfl⟩
    · cases hm : dlookup d1 (pystr "model") with
      | none => rw [hm] at h; cases h
      | some m =>
        rw [hm] at h
        dsimp only at h
        cases hmt : mt m with
        | none => rw [hmt] at h; cases h
        | some m2 => rw [hmt] at h; cases h; exact Or.inr ⟨m2, rfl⟩
  · cases h; exact Or.inl rfl

theorem addPhys_shape (mt : Value → Option Value) (ot : OldTop) (inst item : PyStr)
    (st st' : LegacyState) (h : addPhysicalItem mt ot inst item st = some st') :
    ∃ name info r entry,
      deviceTypename item = some (name, info) ∧
      lookup2 ot inst item = some r ∧
      resolveModel mt st inst (copyFields id r (baseDevice st info)) = some entry ∧
      st' = { st with devices := dinsert st.devices name entry, nid := st.nid + 1 } := by
  unfold addPhysicalItem at h
  cases hty : deviceTypename item with
  | none => rw [hty] at h; cases h
  | some pr =>
    obtain ⟨name, info⟩ := pr
    rw [hty] at h
    dsimp only at h
    cases hr : lookup2 ot inst item with
    | none => rw [hr] at h; cases h
    | some r =>
      rw [hr] at h
      dsimp only at h
      cases hres : resolveModel mt st inst (copyFields id r (baseDevice st info)) with
      | none => rw [hres] at h; cases h
      | some entry =>
        rw [hres] at h
        cases h
        exact ⟨name, info, r, entry, rfl, rfl, hres, rfl⟩

theorem addConf_shape (ot : OldTop) (inst item : PyStr) (st st' : LegacyState)
    (h : addConfItem ot inst item st = some st') :
    ∃ r, lookup2 ot inst item = some r ∧
      st' = { st with conf := st.conf ++ [copyFields id r []],
                      hv_id := (st.conf ++ [copyFields id r []]).length - 1 } := by
  unfold addConfItem at h
  cases hr : lookup2 ot inst item with
  | none => rw [hr] at h; cases h
  | some r => rw [hr] at h; cases h; exact ⟨r, rfl, rfl⟩

theorem artSet_preserves (st : LegacyState) (cat ident : PyStr)
    (entry : List (PyStr × Value)) (st' : LegacyState)
    (h : artSet st cat ident entry = some st') :
    st'.devices = st.devices ∧ st'.conf = st.conf ∧ st'.hv_id = st.hv_id ∧
      st'.nid = st.nid := by
  unfold artSet at h
  repeat' split at h
  all_goals first
    | (cases h; exact ⟨rfl, rfl, rfl, rfl⟩)
    | (cases h)

theorem addArt_preserves (ot : OldTop) (inst item : PyStr) (st st' : LegacyState)
    (h : addArtworkItem ot inst item st = some st') :
    st'.devices = st.devices ∧ st'.conf = st.conf ∧ st'.hv_id = st.hv_id ∧
      st'.nid = st.nid := by
  unfold addArtworkItem at h
  cases hr : lookup2 ot inst item with
  | none => rw [hr] at h; cases h
  | some r =>
    rw [hr] at h
    dsimp only at h
    by_cases hik : hasKey r (pystr "interface") = true
    · rw [if_pos hik] at h; cases h; exact ⟨rfl, rfl, rfl, rfl⟩
    · rw [if_neg hik] at h
      cases hsp : splitOnChar ' ' item with
      | nil => rw [hsp] at h; cases h
      | cons a l =>
        cases l with
        | nil => rw [hsp] at h; cases h
        | cons b l2 =>
          cases l2 with
          | nil =>
            rw [hsp] at h
            exact artSet_preserves st a b _ st' h
          | cons c l3 => rw [hsp] at h; cases h

/-! ### Whole-run lemmas -/

theorem runOps_hv (mt : Value → Option Value) (ot : OldTop) :
    ∀ (ops : List Op) (st st' : LegacyState),
      runOps mt ot ops st = some st' → st.hv_id = st.conf.length - 1 →
      st'.hv_id = st'.conf.length - 1 := by
  intro ops
  induction ops with
  | nil => intro st st' h h0; cases h; exact h0
  | cons op ops ih =>
    intro st st' h h0
    unfold runOps at h
    cases hap : applyOp mt ot op st with
    | none => rw [hap] at h; cases h
    | some st1 =>
      rw [hap] at h
      apply ih st1 st' h
      cases op with
      | conf i it =>
        obtain ⟨r, hr, hst⟩ := addConf_shape ot i it st st1 hap
        rw [hst]
      | phys i it =>
        obtain ⟨name, info, r, entry, _, _, _, hst⟩ := addPhys_shape mt ot i it st st1 hap
        rw [hst]
        exact h0
      | art i it =>
        obtain ⟨_, hc, hh, _⟩ := addArt_preserves ot i it st st1 hap
        rw [hh, hc]
        exact h0

theorem runTrace_spec (mt : Value → Option Value) (ot : OldTop) :
    ∀ (ops : List Op) (st : LegacyState) (t : List Nat) (stf : LegacyState),
      runTrace mt ot ops st = some (t, stf) →
      t = natSeq st.nid t.length ∧ stf.nid = st.nid + t.length := by
  intro ops
  induction ops with
  | nil => intro st t stf h; cases h; exact ⟨rfl, rfl⟩
  | cons op ops ih =>
    intro st t stf h
    unfold runTrace at h
    cases hap : applyOp mt ot op st with
    | none => rw [hap] at h; cases h
    | some st1 =>
      rw [hap] at h
      dsimp only at h
      cases hrt : runTrace mt ot ops st1 with
      | none => rw [hrt] at h; cases h
      | some pr =>
        obtain ⟨t1, stf1⟩ := pr
        rw [hrt] at h
        dsimp only at h
        obtain ⟨iht, ihn⟩ := ih st1 t1 stf1 hrt
        cases op with
        | phys i it =>
          cases h
          have hn1 : st1.nid = st.nid + 1 := by
            obtain ⟨name, info, r, entry, _, _, _, hst⟩ :=
              addPhys_shape mt ot i it st st1 hap
            rw [hst]
          constructor
          · simp only [List.length_cons, natSeq]
            rw [← hn1, ← iht]
          · rw [ihn, hn1]
            simp only [List.length_cons]
            omega
        | conf i it =>
          cases h
          have hn1 : st1.nid = st.nid := by
            obtain ⟨r, hr, hst⟩ := addConf_shape ot i it st st1 hap
            rw [hst]
          exact ⟨by rw [← hn1]; exact iht, by rw [← hn1]; exact ihn⟩
        | art i it =>
          cases h
          have hn1 : st1.nid = st.nid := by
            obtain ⟨_, _, _, hn⟩ := addArt_preserves ot i it st st1 hap
            exact hn
          exact ⟨by rw [← hn1]; exact iht, by rw [← hn1]; exact ihn⟩

/-! ### C5 — quote stripping is not idempotent (corrected) -/

/-- C5 (counterexample): the quoted-string stripping transform is not
idempotent on all strings: for the doubly quoted string `""a""`, one
application yields `"a"`, which is itself quote-wrapped, so a second
application strips a further pair of quotes. -/
theorem stripQuotes_not_idempotent :
    stripQuotes (stripQuotes (pystr "\"\"a\"\"")) ≠ stripQuotes (pystr "\"\"a\"\"") := by
  decide

/-- C5 (amended): the quoted-string stripping transform is idempotent on every
string whose once-stripped value is not itself a quote-wrapped string of
length > 1; equivalently, a second application changes nothing unless the
first strip uncovers another surrounding pair of quotes. -/
theorem stripQuotes_idem_of_not_wrapped (s : PyStr)
    (h : ¬(1 < (stripQuotes s).length ∧ (stripQuotes s).head? = some '"' ∧
          (stripQuotes s).getLast? = some '"')) :
    stripQuotes (stripQuotes s) = stripQuotes s :=
  if_neg h

/-- C5 (witness): the amended idempotence at the singly quoted string `"ab"`. -/
theorem stripQuotes_idem_of_not_wrapped_witness :
    stripQuotes (stripQuotes (pystr "\"ab\"")) = stripQuotes (pystr "\"ab\"") :=
  stripQuotes_idem_of_not_wrapped (pystr "\"ab\"") (by decide)

/-! ### C8 — unrecognized device type is fatal (confirmed) -/

/-- C8: for every item whose first space-separated token is not one of the 9
device-type tags, `device_typename` fails with the fatal lookup error, and
`add_physical_item` on that item aborts with no device record created, for
every table, legacy configuration, instance and accumulator state. -/
theorem unknown_type_fatal (item : PyStr)
    (h : firstToken item ∉ [pystr "ROUTER", pystr "QEMU", pystr "VBOX", pystr "FRSW",
      pystr "ETHSW", pystr "Hub", pystr "ATMSW", pystr "ATMBR", pystr "Cloud"]) :
    deviceTypename item = none ∧
      ∀ (mt : Value → Option Value) (ot : OldTop) (inst : PyStr) (st : LegacyState),
        addPhysicalItem mt ot inst item st = none := by
  have hd : devTable (firstToken item) = none := by
    cases hd : devTable (firstToken item) with
    | none => rfl
    | some info => exact absurd (devTable_spec _ info hd).2.2 h
  have hty : deviceTypename item = none := by
    unfold deviceTypename
    rw [hd]
  refine ⟨hty, ?_⟩
  intro mt ot inst st
  unfold addPhysicalItem
  rw [hty]

/-- C8 (witness): the fatal failure at the concrete item `FOO X`. -/
theorem unknown_type_fatal_witness :
    deviceTypename (pystr "FOO X") = none ∧
      ∀ (mt : Value → Option Value) (ot : OldTop) (inst : PyStr) (st : LegacyState),
        addPhysicalItem mt ot inst (pystr "FOO X") st = none :=
  unknown_type_fatal (pystr "FOO X") (by decide)

/-! ### C9 — a null shapes container is fatal (confirmed) -/

/-- C9: `get_topology` fails with the fatal access error, returning no
structure at all, whenever the shapes field is null, because it
unconditionally subscripts the shapes container. -/
theorem null_shapes_fatal (t : JSONTopology) (h : t.shapes = JVal.jnull) :
    getTopology t = none := by
  unfold getTopology
  rw [h]
  rfl

/-- C9 (witness): the freshly initialised assembler has a null shapes field,
so assembling it fails. -/
theorem null_shapes_fatal_witness : getTopology JSONTopology.init = none :=
  null_shapes_fatal JSONTopology.init rfl

/-! ### C2 — node ids are consecutive from 1 (confirmed) -/

/-- C2: across any full (error-free) run of accumulator calls starting from
the initial state, the `node_id` values consumed by the successive
`add_physical_item` calls, in device-insertion order, are exactly the
strictly increasing sequence 1, 2, 3, ... with no gaps and no repeats. -/
theorem nodeIds_consecutive (mt : Value → Option Value) (ot : OldTop) (ops : List Op)
    (t : List Nat) (stf : LegacyState)
    (h : runTrace mt ot ops initState = some (t, stf)) :
    t = natSeq 1 t.length :=
  (runTrace_spec mt ot ops initState t stf h).1

/-- C2 (witness): the two-cloud run assigns exactly the node ids 1, 2. -/
theorem nodeIds_consecutive_witness :
    ([1, 2] : List Nat) = natSeq 1 (List.length ([1, 2] : List Nat)) :=
  nodeIds_consecutive mtZ otTwoClouds opsTwoClouds [1, 2] stTwoClouds (by decide)

/-! ### C10 — a duplicate device name silently replaces (confirmed) -/

/-- C10: when two successful `add_physical_item` calls resolve to the same
device name, the second call's record replaces the first in the devices
mapping (the mapping afterwards holds exactly the second record under that
name), while the `nid` cursor is incremented by both calls, so the first
record's `node_id` can be absent from the final mapping; no error arises from
the duplicate name itself. -/
theorem duplicate_name_replaces (mt : Value → Option Value) (ot : OldTop)
    (i1 it1 i2 it2 name : PyStr) (info1 info2 : DevInfo) (st st1 st2 : LegacyState)
    (h1 : deviceTypename it1 = some (name, info1))
    (h2 : deviceTypename it2 = some (name, info2))
    (ha1 : addPhysicalItem mt ot i1 it1 st = some st1)
    (ha2 : addPhysicalItem mt ot i2 it2 st1 = some st2) :
    hasKey st1.devices name = true ∧
    st2.nid = st.nid + 2 ∧
    ∃ entry2, st2.devices = dinsert st1.devices name entry2 ∧
      dlookup st2.devices name = some entry2 := by
  obtain ⟨n1, f1, r1, e1, hty1, hr1, hres1, hst1⟩ := addPhys_shape mt ot i1 it1 st st1 ha1
  obtain ⟨n2, f2, r2, e2, hty2, hr2, hres2, hst2⟩ := addPhys_shape mt ot i2 it2 st1 st2 ha2
  rw [h1] at hty1
  rw [h2] at hty2
  injection hty1 with hp1
  injection hp1 with hn1 hf1
  injection hty2 with hp2
  injection hp2 with hn2 hf2
  subst hn1
  subst hn2
  refine ⟨?_, ?_, e2, ?_, ?_⟩
  · rw [hst1]
    dsimp only
    rw [hasKey_dinsert]
    simp
  · rw [hst2, hst1]
  · rw [hst2]
  · rw [hst2]
    dsimp only
    exact dlookup_dinsert_self _ _ _

/-- C10 (witness): adding `Cloud C1` twice from the initial state leaves one
record (the second, with `node_id` 2) and the cursor at 3, so `node_id` 1 is
gone from the mapping. -/
theorem duplicate_name_replaces_witness :
    hasKey stCloud1.devices (pystr "C1") = true ∧
    stCloud2.nid = initState.nid + 2 ∧
    ∃ entry2, stCloud2.devices = dinsert stCloud1.devices (pystr "C1") entry2 ∧
      dlookup stCloud2.devices (pystr "C1") = some entry2 :=
  duplicate_name_replaces mtZ otC1 (pystr "GNS3-DATA") (pystr "Cloud C1")
    (pystr "GNS3-DATA") (pystr "Cloud C1") (pystr "C1")
    ⟨pystr "Cloud", pystr "Cloud", pystr "Cloud"⟩
    ⟨pystr "Cloud", pystr "Cloud", pystr "Cloud"⟩
    initState stCloud1 stCloud2 (by decide) (by decide) (by decide) (by decide)

/-! ### C1 — hv_id versus the conf sequence (corrected) -/

/-- C1 (counterexample): a device added before any config block exists gets
`hv_id` 0 while `len(conf) - 1` is `-1`: after `add_physical_item` for
`Cloud C1` from the freshly initialised accumulator, the device record holds
`hv_id` 0 but the conf sequence is still empty. -/
theorem hvId_counterexample :
    addPhysicalItem mtZ otC1 (pystr "GNS3-DATA") (pystr "Cloud C1") initState =
      some stCloud1 ∧
    dlookup stCloud1.devices (pystr "C1") = some devC1 ∧
    dlookup devC1 (pystr "hv_id") = some (Value.num 0) ∧
    (stCloud1.conf.length : Int) - 1 = -1 ∧
    Value.num 0 ≠ Value.num ((stCloud1.conf.length : Int) - 1) := by
  decide

/-- C1 (amended): in any reachable accumulator state in which at least one
config block has been appended, a device created by a successful
`add_physical_item` (from a legacy record that does not itself carry a
non-null `hv_id` field) records `hv_id = len(conf) - 1`, the index of the
most recently appended config block; when no config block exists yet, the
recorded `hv_id` is 0 instead. -/
theorem hvId_tracks_conf (mt : Value → Option Value) (ot : OldTop) (ops : List Op)
    (st st' : LegacyState) (inst item name : PyStr) (info : DevInfo) (r : Record)
    (hrun : runOps mt ot ops initState = some st)
    (hne : st.conf ≠ [])
    (hty : deviceTypename item = some (name, info))
    (hr : lookup2 ot inst item = some r)
    (hnull : (dlookup r (pystr "hv_id")).join = none)
    (hadd : addPhysicalItem mt ot inst item st = some st') :
    ∃ entry, dlookup st'.devices name = some entry ∧
      dlookup entry (pystr "hv_id") = some (Value.num ((st.conf.length : Int) - 1)) := by
  obtain ⟨n1, f1, r1, e1, hty1, hr1, hres1, hst1⟩ := addPhys_shape mt ot inst item st st' hadd
  rw [hty] at hty1
  injection hty1 with hp1
  injection hp1 with hn1 hf1
  subst hn1
  subst hf1
  rw [hr] at hr1
  injection hr1 with hrr
  subst hrr
  have hhv : st.hv_id = st.conf.length - 1 := runOps_hv mt ot ops initState st hrun rfl
  have hd1 : dlookup (copyFields id r (baseDevice st info)) (pystr "hv_id") =
      some (Value.num st.hv_id) := by
    rw [copyFields_dlookup_null id r _ _ hnull]
    exact baseDevice_hv st info
  have he1 : dlookup e1 (pystr "hv_id") = some (Value.num st.hv_id) := by
    rcases resolveModel_shape mt st inst _ e1 hres1 with he | ⟨mv, he⟩
    · rw [he]
      exact hd1
    · rw [he, dlookup_dinsert_ne _ _ _ _ (by decide)]
      exact hd1
  refine ⟨e1, ?_, ?_⟩
  · rw [hst1]
    dsimp only
    exact dlookup_dinsert_self _ _ _
  · rw [he1]
    have hlen : st.conf.length ≠ 0 := fun h0 => hne (List.length_eq_zero.mp h0)
    congr 2
    omega

/-- C1 (amended, witness): after one config block (`model: c3600`) has been
appended, adding `ROUTER R1` records `hv_id = len(conf) - 1 = 0`. -/
theorem hvId_tracks_conf_witness :
    ∃ entry, dlookup stRouterFin.devices (pystr "R1") = some entry ∧
      dlookup entry (pystr "hv_id") =
        some (Value.num ((stRouterMid.conf.length : Int) - 1)) :=
  hvId_tracks_conf mtZ otRouter [Op.conf (pystr "R1") (pystr "7200")]
    stRouterMid stRouterFin (pystr "R1") (pystr "ROUTER R1") (pystr "R1")
    ⟨pystr "ROUTER", pystr "Router", pystr "Router"⟩
    [(pystr "x", some (Value.str (pystr "10")))]
    (by decide) (by decide) (by decide) (by decide) (by decide) (by decide)

/-! ### C3 — router model resolution (confirmed) -/

/-- C3: for a successful `add_physical_item` outside the reserved `GNS3-DATA`
instance whose resolved type is `Router` (the legacy record carrying no
non-null `type` override): if the legacy record supplies no non-null `model`,
the created device's `model` is copied from the owning config block
`conf[hv_id]['model']`; otherwise the supplied model is replaced by its entry
in the model-translation table, and a model absent from the table aborts the
conversion with the fatal lookup error. -/
theorem router_model_resolved (mt : Value → Option Value) (ot : OldTop)
    (inst item name : PyStr) (info : DevInfo) (r : Record) (st : LegacyState)
    (hty : deviceTypename item = some (name, info))
    (hr : lookup2 ot inst item = some r)
    (hinst : inst ≠ pystr "GNS3-DATA")
    (htype : (dlookup r (pystr "type")).join = none)
    (hrouter : info.dtype = pystr "Router") :
    ((dlookup r (pystr "model")).join = none →
      ∀ c mv, st.conf[st.hv_id]? = some c → dlookup c (pystr "model") = some mv →
        ∃ st' entry, addPhysicalItem mt ot inst item st = some st' ∧
          dlookup st'.devices name = some entry ∧
          dlookup entry (pystr "model") = some mv) ∧
    (∀ m, (dlookup r (pystr "model")).join = some m →
      (∀ m2, mt m = some m2 →
        ∃ st' entry, addPhysicalItem mt ot inst item st = some st' ∧
          dlookup st'.devices name = some entry ∧
          dlookup entry (pystr "model") = some m2) ∧
      (mt m = none → addPhysicalItem mt ot inst item st = none)) := by
  have hd1type : dlookup (copyFields id r (baseDevice st info)) (pystr "type") =
      some (Value.str (pystr "Router")) := by
    rw [copyFields_dlookup_null id r _ _ htype, baseDevice_type, hrouter]
  have hcond : inst ≠ pystr "GNS3-DATA" ∧
      dlookup (copyFields id r (baseDevice st info)) (pystr "type") =
        some (Value.str (pystr "Router")) := ⟨hinst, hd1type⟩
  constructor
  · intro hmnull c mv hc hcm
    have hnokey : hasKey (copyFields id r (baseDevice st info)) (pystr "model") =
        false := by
      cases hhk : hasKey (copyFields id r (baseDevice st info)) (pystr "model") with
      | false => rfl
      | true =>
        rcases (hasKey_copyFields id r (baseDevice st info) (pystr "model")).mp hhk
          with hb | hj
        · rw [baseDevice_no_model] at hb
          cases hb
        · rw [hmnull] at hj
          simp at hj
    have hres : resolveModel mt st inst (copyFields id r (baseDevice st info)) =
        some (dinsert (copyFields id r (baseDevice st info)) (pystr "model") mv) := by
      unfold resolveModel
      rw [if_pos hcond, if_pos (by rw [hnokey]; rfl), hc]
      dsimp only
      rw [hcm]
    refine ⟨{ st with
        devices := dinsert st.devices name
          (dinsert (copyFields id r (baseDevice st info)) (pystr "model") mv),
        nid := st.nid + 1 },
      dinsert (copyFields id r (baseDevice st info)) (pystr "model") mv, ?_, ?_, ?_⟩
    · unfold addPhysicalItem
      rw [hty]
      dsimp only
      rw [hr]
      dsimp only
      rw [hres]
    · exact dlookup_dinsert_self _ _ _
    · exact dlookup_dinsert_self _ _ _
  · intro m hm
    have hj : (dlookup r (pystr "model")).join.isSome = true := by rw [hm]; rfl
    have hkey : hasKey (copyFields id r (baseDevice st info)) (pystr "model") = true :=
      (hasKey_copyFields id r (baseDevice st info) (pystr "model")).mpr (Or.inr hj)
    have hd1m : dlookup (copyFields id r (baseDevice st info)) (pystr "model") =
        some m :=
      copyFields_dlookup_some id r (baseDevice st info) (pystr "model") m hm
    constructor
    · intro m2 hmt
      have hres : resolveModel mt st inst (copyFields id r (baseDevice st info)) =
          some (dinsert (copyFields id r (baseDevice st info)) (pystr "model") m2) := by
        unfold resolveModel
        rw [if_pos hcond, if_neg (by rw [hkey]; decide), hd1m]
        dsimp only
        rw [hmt]
      refine ⟨{ st with
          devices := dinsert st.devices name
            (dinsert (copyFields id r (baseDevice st info)) (pystr "model") m2),
          nid := st.nid + 1 },
        dinsert (copyFields id r (baseDevice st info)) (pystr "model") m2, ?_, ?_, ?_⟩
      · unfold addPhysicalItem
        rw [hty]
        dsimp only
        rw [hr]
        dsimp only
        rw [hres]
      · exact dlookup_dinsert_self _ _ _
      · exact dlookup_dinsert_self _ _ _
    · intro hmtn
      have hres : resolveModel mt st inst (copyFields id r (baseDevice st info)) =
          none := by
        unfold resolveModel
        rw [if_pos hcond, if_neg (by rw [hkey]; decide), hd1m]
        dsimp only
        rw [hmtn]
      unfold addPhysicalItem
      rw [hty]
      dsimp only
      rw [hr]
      dsimp only
      rw [hres]

/-- C3 (witness): the spec scenario — `ROUTER R1` with legacy record
`{'model': None, 'x': '10'}` under the config block `{'model': 'c3600'}` at
`hv_id` 0 yields a device whose `model` is `c3600`. -/
theorem router_model_resolved_witness :
    ∃ st' entry,
      addPhysicalItem mtZ otModelNull (pystr "R1") (pystr "ROUTER R1") stRouterMid =
        some st' ∧
      dlookup st'.devices (pystr "R1") = some entry ∧
      dlookup entry (pystr "model") = some (Value.str (pystr "c3600")) :=
  (router_model_resolved mtZ otModelNull (pystr "R1") (pystr "ROUTER R1") (pystr "R1")
    ⟨pystr "ROUTER", pystr "Router", pystr "Router"⟩ rModelNull stRouterMid
    (by decide) (by decide) (by decide) (by decide) (by decide)).1
    (by decide) [(pystr "model", Value.str (pystr "c3600"))]
    (Value.str (pystr "c3600")) (by decide) (by decide)

/-! ### C4 — device_typename name stripping (corrected) -/

/-- C4 (counterexample): Python `str.replace` removes every occurrence of
`"<from> "`, not only the leading prefix: for the item `ROUTER ROUTER 1` the
returned name is `1`, not the bare device name `ROUTER 1`. -/
theorem typename_counterexample :
    deviceTypename (pystr "ROUTER ROUTER 1") =
      some (pystr "1", ⟨pystr "ROUTER", pystr "Router", pystr "Router"⟩) ∧
    pystr "1" ≠ pystr "ROUTER 1" := by
  decide

/-- C4 (amended): for an item `<TYPE> <name>` whose TYPE is one of the 9
table entries, `device_typename` removes every occurrence of the literal
`"<from> "` from the item; this returns the bare name exactly when the name
itself does not contain `"<from> "` as a substring, in which case the pair
`(name, type_info)` is returned with the name preserved verbatim. -/
theorem typename_strips_tag (tag nm : PyStr) (info : DevInfo)
    (ht : devTable tag = some info)
    (hnm : containsPat (info.dfrom ++ [ ' ' ]) nm = false) :
    deviceTypename (tag ++ ' ' :: nm) = some (nm, info) := by
  obtain ⟨hfrom, hsp, _⟩ := devTable_spec tag info ht
  unfold deviceTypename
  rw [firstToken_append tag nm hsp, ht]
  dsimp only
  rw [hfrom]
  rw [show tag ++ ' ' :: nm = (tag ++ [ ' ' ]) ++ nm by simp]
  rw [replaceAll_append_self (tag ++ [ ' ' ]) nm (by simp),
    replaceAll_no_occurrence (tag ++ [ ' ' ]) [] nm (by rw [← hfrom]; exact hnm)]

/-- C4 (amended, witness): the stripping at the well-formed item `ROUTER R1`,
whose name `R1` does not contain the tag. -/
theorem typename_strips_tag_witness :
    deviceTypename (pystr "ROUTER" ++ ' ' :: pystr "R1") =
      some (pystr "R1", ⟨pystr "ROUTER", pystr "Router", pystr "Router"⟩) :=
  typename_strips_tag (pystr "ROUTER") (pystr "R1")
    ⟨pystr "ROUTER", pystr "Router", pystr "Router"⟩ (by decide) (by decide)

/-! ### C6 — add_artwork_item behaviour (confirmed) -/

/-- C6: `add_artwork_item` leaves the state unchanged when the referenced
legacy record has an `interface` field; otherwise, for a composite key
splitting as `CATEGORY IDENTIFIER` with a valid category, it stores at
`artwork[CATEGORY][IDENTIFIER]` exactly the record holding, in sorted
field-name order, every non-null legacy field with the value transform
applied (backslash-n expanded to a newline for NOTE strings, then surrounding
double quotes stripped). -/
theorem artwork_item_spec (ot : OldTop) (inst item : PyStr) (st : LegacyState)
    (r : Record) (cat ident : PyStr)
    (hr : lookup2 ot inst item = some r)
    (hsp : splitOnChar ' ' item = [cat, ident])
    (hcat : cat = pystr "SHAPE" ∨ cat = pystr "NOTE" ∨ cat = pystr "PIXMAP")
    (hnd : (r.map Prod.fst).Nodup) :
    (hasKey r (pystr "interface") = true → addArtworkItem ot inst item st = some st) ∧
    (hasKey r (pystr "interface") = false →
      ∃ st' m, addArtworkItem ot inst item st = some st' ∧
        artCat st' cat = some m ∧
        dlookup m ident = some
          ((ssort (r.map Prod.fst)).filterMap
            (fun k => ((dlookup r k).join).map (fun v => (k, artTransform cat v))))) := by
  constructor
  · intro hik
    unfold addArtworkItem
    rw [hr]
    dsimp only
    rw [if_pos hik]
  · intro hik
    have hrec := copyFields_eq_filterMap (artTransform cat) r hnd
    have hmain : addArtworkItem ot inst item st =
        artSet st cat ident (copyFields (artTransform cat) r []) := by
      unfold addArtworkItem
      rw [hr]
      dsimp only
      rw [if_neg (by simp [hik]), hsp]
    rcases hcat with hc | hc | hc
    · subst hc
      refine ⟨⟨st.devices, st.conf,
          dinsert st.artSHAPE ident (copyFields (artTransform (pystr "SHAPE")) r []),
          st.artNOTE, st.artPIXMAP, st.hv_id, st.nid⟩,
        dinsert st.artSHAPE ident (copyFields (artTransform (pystr "SHAPE")) r []),
        ?_, ?_, ?_⟩
      · rw [hmain]
        unfold artSet
        rw [if_pos rfl]
      · unfold artCat
        rw [if_pos rfl]
      · rw [dlookup_dinsert_self, hrec]
    · subst hc
      refine ⟨⟨st.devices, st.conf, st.artSHAPE,
          dinsert st.artNOTE ident (copyFields (artTransform (pystr "NOTE")) r []),
          st.artPIXMAP, st.hv_id, st.nid⟩,
        dinsert st.artNOTE ident (copyFields (artTransform (pystr "NOTE")) r []),
        ?_, ?_, ?_⟩
      · rw [hmain]
        unfold artSet
        rw [if_neg (by decide), if_pos rfl]
      · unfold artCat
        rw [if_neg (by decide), if_pos rfl]
      · rw [dlookup_dinsert_self, hrec]
    · subst hc
      refine ⟨⟨st.devices, st.conf, st.artSHAPE, st.artNOTE,
          dinsert st.artPIXMAP ident (copyFields (artTransform (pystr "PIXMAP")) r []),
          st.hv_id, st.nid⟩,
        dinsert st.artPIXMAP ident (copyFields (artTransform (pystr "PIXMAP")) r []),
        ?_, ?_, ?_⟩
      · rw [hmain]
        unfold artSet
        rw [if_neg (by decide), if_neg (by decide), if_pos rfl]
      · unfold artCat
        rw [if_neg (by decide), if_neg (by decide), if_pos rfl]
      · rw [dlookup_dinsert_self, hrec]

/-- C6 (witness): the spec scenario — artwork item `NOTE 1` with text
`"hello\nworld"` (quoted, with a literal backslash-n) is stored stripped of
quotes and with the escape expanded to a real newline. -/
theorem artwork_item_spec_witness :
    (∃ st' m,
      addArtworkItem otNote (pystr "GNS3-DATA") (pystr "NOTE 1") initState = some st' ∧
      artCat st' (pystr "NOTE") = some m ∧
      dlookup m (pystr "1") = some
        ((ssort (noteRec.map Prod.fst)).filterMap
          (fun k => ((dlookup noteRec k).join).map
            (fun v => (k, artTransform (pystr "NOTE") v))))) ∧
    ((ssort (noteRec.map Prod.fst)).filterMap
        (fun k => ((dlookup noteRec k).join).map
          (fun v => (k, artTransform (pystr "NOTE") v)))) =
      [(pystr "text", Value.str (pystr "hello\nworld"))] :=
  ⟨(artwork_item_spec otNote (pystr "GNS3-DATA") (pystr "NOTE 1") initState noteRec
      (pystr "NOTE") (pystr "1") (by decide) (by decide) (Or.inr (Or.inl rfl))
      (by decide)).2 (by decide),
   by decide⟩

/-! ### C7 — get_topology assembly (confirmed) -/

theorem dl_skip {β : Type} (acc : List (PyStr × β)) (c : Bool) (k key : PyStr) (v : β)
    (h : ¬ k = key) :
    dlookup (if c = true then dinsert acc k v else acc) key = dlookup acc key := by
  cases c with
  | false => rfl
  | true => rw [if_pos rfl]; exact dlookup_dinsert_ne acc k key v h

theorem dl_hit {β : Type} (acc : List (PyStr × β)) (c : Bool) (k : PyStr) (v : β) :
    dlookup (if c = true then dinsert acc k v else acc) k =
      if c = true then some v else dlookup acc k := by
  cases c with
  | false => rfl
  | true => rw [if_pos rfl, if_pos rfl]; exact dlookup_dinsert_self acc k v

theorem innerChain_links (t : JSONTopology) (e rct : JVal) :
    dlookup (innerChain t e rct) (pystr "links") =
      (if isNull t.links = true then none else some t.links) := by
  simp only [innerChain]
  rw [dl_skip _ (!isNull t.images) (pystr "images") (pystr "links") t.images (by decide),
    dl_skip _ (!isNull rct) (pystr "rectangles") (pystr "links") rct (by decide),
    dl_skip _ (!isNull e) (pystr "ellipses") (pystr "links") e (by decide),
    dl_skip _ (!isNull t.notes) (pystr "notes") (pystr "links") t.notes (by decide),
    dl_skip _ (!isNull t.servers) (pystr "servers") (pystr "links") t.servers (by decide),
    dl_skip _ (!isNull t.nodes) (pystr "nodes") (pystr "links") t.nodes (by decide),
    dl_hit _ (!isNull t.links) (pystr "links") t.links]
  cases hb : isNull t.links <;> simp [dlookup]

theorem innerChain_nodes (t : JSONTopology) (e rct : JVal) :
    dlookup (innerChain t e rct) (pystr "nodes") =
      (if isNull t.nodes = true then none else some t.nodes) := by
  simp only [innerChain]
  rw [dl_skip _ (!isNull t.images) (pystr "images") (pystr "nodes") t.images (by decide),
    dl_skip _ (!isNull rct) (pystr "rectangles") (pystr "nodes") rct (by decide),
    dl_skip _ (!isNull e) (pystr "ellipses") (pystr "nodes") e (by decide),
    dl_skip _ (!isNull t.notes) (pystr "notes") (pystr "nodes") t.notes (by decide),
    dl_skip _ (!isNull t.servers) (pystr "servers") (pystr "nodes") t.servers (by decide),
    dl_hit _ (!isNull t.nodes) (pystr "nodes") t.nodes,
    dl_skip _ (!isNull t.links) (pystr "links") (pystr "nodes") t.links (by decide)]
  cases hb : isNull t.nodes <;> simp [dlookup]

theorem innerChain_servers (t : JSONTopology) (e rct : JVal) :
    dlookup (innerChain t e rct) (pystr "servers") =
      (if isNull t.servers = true then none else some t.servers) := by
  simp only [innerChain]
  rw [dl_skip _ (!isNull t.images) (pystr "images") (pystr "servers") t.images (by decide),
    dl_skip _ (!isNull rct) (pystr "rectangles") (pystr "servers") rct (by decide),
    dl_skip _ (!isNull e) (pystr "ellipses") (pystr "servers") e (by decide),
    dl_skip _ (!isNull t.notes) (pystr "notes") (pystr "servers") t.notes (by decide),
    dl_hit _ (!isNull t.servers) (pystr "servers") t.servers,
    dl_skip _ (!isNull t.nodes) (pystr "nodes") (pystr "servers") t.nodes (by decide),
    dl_skip _ (!isNull t.links) (pystr "links") (pystr "servers") t.links (by decide)]
  cases hb : isNull t.servers <;> simp [dlookup]

theorem innerChain_notes (t : JSONTopology) (e rct : JVal) :
    dlookup (innerChain t e rct) (pystr "notes") =
      (if isNull t.notes = true then none else some t.notes) := by
  simp only [innerChain]
  rw [dl_skip _ (!isNull t.images) (pystr "images") (pystr "notes") t.images (by decide),
    dl_skip _ (!isNull rct) (pystr "rectangles") (pystr "notes") rct (by decide),
    dl_skip _ (!isNull e) (pystr "ellipses") (pystr "notes") e (by decide),
    dl_hit _ (!isNull t.notes) (pystr "notes") t.notes,
    dl_skip _ (!isNull t.servers) (pystr "servers") (pystr "notes") t.servers (by decide),
    dl_skip _ (!isNull t.nodes) (pystr "nodes") (pystr "notes") t.nodes (by decide),
    dl_skip _ (!isNull t.links) (pystr "links") (pystr "notes") t.links (by decide)]
  cases hb : isNull t.notes <;> simp [dlookup]

theorem innerChain_ellipses (t : JSONTopology) (e rct : JVal) :
    dlookup (innerChain t e rct) (pystr "ellipses") =
      (if isNull e = true then none else some e) := by
  simp only [innerChain]
  rw [dl_skip _ (!isNull t.images) (pystr "images") (pystr "ellipses") t.images (by decide),
    dl_skip _ (!isNull rct) (pystr "rectangles") (pystr "ellipses") rct (by decide),
    dl_hit _ (!isNull e) (pystr "ellipses") e,
    dl_skip _ (!isNull t.notes) (pystr "notes") (pystr "ellipses") t.notes (by decide),
    dl_skip _ (!isNull t.servers) (pystr "servers") (pystr "ellipses") t.servers (by decide),
    dl_skip _ (!isNull t.nodes) (pystr "nodes") (pystr "ellipses") t.nodes (by decide),
    dl_skip _ (!isNull t.links) (pystr "links") (pystr "ellipses") t.links (by decide)]
  cases hb : isNull e <;> simp [dlookup]

theorem innerChain_rectangles (t : JSONTopology) (e rct : JVal) :
    dlookup (innerChain t e rct) (pystr "rectangles") =
      (if isNull rct = true then none else some rct) := by
  simp only [innerChain]
  rw [dl_skip _ (!isNull t.images) (pystr "images") (pystr "rectangles") t.images (by decide),
    dl_hit _ (!isNull rct) (pystr "rectangles") rct,
    dl_skip _ (!isNull e) (pystr "ellipses") (pystr "rectangles") e (by decide),
    dl_skip _ (!isNull t.notes) (pystr "notes") (pystr "rectangles") t.notes (by decide),
    dl_skip _ (!isNull t.servers) (pystr "servers") (pystr "rectangles") t.servers (by decide),
    dl_skip _ (!isNull t.nodes) (pystr "nodes") (pystr "rectangles") t.nodes (by decide),
    dl_skip _ (!isNull t.links) (pystr "links") (pystr "rectangles") t.links (by decide)]
  cases hb : isNull rct <;> simp [dlookup]

theorem innerChain_images (t : JSONTopology) (e rct : JVal) :
    dlookup (innerChain t e rct) (pystr "images") =
      (if isNull t.images = true then none else some t.images) := by
  simp only [innerChain]
  rw [dl_hit _ (!isNull t.images) (pystr "images") t.images,
    dl_skip _ (!isNull rct) (pystr "rectangles") (pystr "images") rct (by decide),
    dl_skip _ (!isNull e) (pystr "ellipses") (pystr "images") e (by decide),
    dl_skip _ (!isNull t.notes) (pystr "notes") (pystr "images") t.notes (by decide),
    dl_skip _ (!isNull t.servers) (pystr "servers") (pystr "images") t.servers (by decide),
    dl_skip _ (!isNull t.nodes) (pystr "nodes") (pystr "images") t.nodes (by decide),
    dl_skip _ (!isNull t.links) (pystr "links") (pystr "images") t.links (by decide)]
  cases hb : isNull t.images <;> simp [dlookup]

/-- C7: a successful `get_topology` always carries `name`, the fixed
`resources_type`, `type` and `version` strings, and its inner `topology`
object holds each optional collection (`links`, `nodes`, `servers`, `notes`,
the two shape categories as `ellipses`/`rectangles`, and `images`) exactly
when the corresponding source value is non-null, with the source value
included verbatim, and omits the key entirely otherwise. -/
theorem getTopology_fields (t : JSONTopology) (out : JVal)
    (h : getTopology t = some out) :
    jsub out (pystr "name") = some t.name ∧
    jsub out (pystr "resources_type") = some (JVal.jstr (pystr "local")) ∧
    jsub out (pystr "type") = some (JVal.jstr (pystr "topology")) ∧
    jsub out (pystr "version") = some (JVal.jstr (pystr "1.0")) ∧
    ∃ e rct,
      jsub t.shapes (pystr "ellipse") = some e ∧
      jsub t.shapes (pystr "rectangle") = some rct ∧
      jsub out (pystr "topology") = some (JVal.jobj (innerChain t e rct)) ∧
      dlookup (innerChain t e rct) (pystr "links") =
        (if isNull t.links = true then none else some t.links) ∧
      dlookup (innerChain t e rct) (pystr "nodes") =
        (if isNull t.nodes = true then none else some t.nodes) ∧
      dlookup (innerChain t e rct) (pystr "servers") =
        (if isNull t.servers = true then none else some t.servers) ∧
      dlookup (innerChain t e rct) (pystr "notes") =
        (if isNull t.notes = true then none else some t.notes) ∧
      dlookup (innerChain t e rct) (pystr "ellipses") =
        (if isNull e = true then none else some e) ∧
      dlookup (innerChain t e rct) (pystr "rectangles") =
        (if isNull rct = true then none else some rct) ∧
      dlookup (innerChain t e rct) (pystr "images") =
        (if isNull t.images = true then none else some t.images) := by
  unfold getTopology at h
  cases he : jsub t.shapes (pystr "ellipse") with
  | none => rw [he] at h; cases h
  | some e =>
    rw [he] at h
    dsimp only at h
    cases hrc : jsub t.shapes (pystr "rectangle") with
    | none => rw [hrc] at h; cases h
    | some rct =>
      rw [hrc] at h
      cases h
      exact ⟨rfl, rfl, rfl, rfl, e, rct, rfl, rfl, rfl,
        innerChain_links t e rct, innerChain_nodes t e rct, innerChain_servers t e rct,
        innerChain_notes t e rct, innerChain_ellipses t e rct,
        innerChain_rectangles t e rct, innerChain_images t e rct⟩

/-- C7 (witness): the spec scenario — null nodes, links, notes and images,
shapes `{'ellipse': [], 'rectangle': []}` — yields a structure with empty
`ellipses` and `rectangles`, the default servers, and no `nodes`, `links`,
`notes` or `images` keys. -/
theorem getTopology_fields_witness :
    jsub outScenario (pystr "name") = some tScenario.name ∧
    jsub outScenario (pystr "resources_type") = some (JVal.jstr (pystr "local")) ∧
    jsub outScenario (pystr "type") = some (JVal.jstr (pystr "topology")) ∧
    jsub outScenario (pystr "version") = some (JVal.jstr (pystr "1.0")) ∧
    ∃ e rct,
      jsub tScenario.shapes (pystr "ellipse") = some e ∧
      jsub tScenario.shapes (pystr "rectangle") = some rct ∧
      jsub outScenario (pystr "topology") =
        some (JVal.jobj (innerChain tScenario e rct)) ∧
      dlookup (innerChain tScenario e rct) (pystr "links") =
        (if isNull tScenario.links = true then none else some tScenario.links) ∧
      dlookup (innerChain tScenario e rct) (pystr "nodes") =
        (if isNull tScenario.nodes = true then none else some tScenario.nodes) ∧
      dlookup (innerChain tScenario e rct) (pystr "servers") =
        (if isNull tScenario.servers = true then none else some tScenario.servers) ∧
      dlookup (innerChain tScenario e rct) (pystr "notes") =
        (if isNull tScenario.notes = true then none else some tScenario.notes) ∧
      dlookup (innerChain tScenario e rct) (pystr "ellipses") =
        (if isNull e = true then none else some e) ∧
      dlookup (innerChain tScenario e rct) (pystr "rectangles") =
        (if isNull rct = true then none else some rct) ∧
      dlookup (innerChain tScenario e rct) (pystr "images") =
        (if isNull tScenario.images = true then none else some tScenario.images) :=
  getTopology_fields tScenario outScenario rfl
